import Mathlib

/- Formal model of the everbest12/Trading strategy-execution and risk-enforcement
engine, checked against its written specification.

Configuration values are transcribed from the repository's trading-parameters
JSON (its risk_management, trading_hours and news_trading sections).  The core
engine components themselves (RiskLedger, SessionCalendar, PositionSizer,
RiskGate) are not shipped in the repository; each of their definitions below is
modelled from the specification, as its doc comment records.  The notebook
function export_trade_history_to_csv is transcribed from the repository's
backtesting notebook. -/

namespace Trading

/-- Value of an ASCII digit character, used to read the "HH:MM" strings of the
configuration. -/
def digitVal (c : Char) : Nat := c.toNat - 48

/-- Minutes past local midnight denoted by an "HH:MM" string of the
configuration. -/
def timeStrToMin (s : String) : Nat :=
  match s.toList with
  | [h1, h2, _, m1, m2] => (digitVal h1 * 10 + digitVal h2) * 60 + (digitVal m1 * 10 + digitVal m2)
  | _ => 0

/-- Shape of the risk_management section of the trading-parameters JSON. -/
structure RiskManagementConfig where
  default_risk_percent : ℚ
  max_daily_loss_percent : ℚ
  max_weekly_loss_percent : ℚ
  max_open_positions : Nat
  max_positions_per_symbol : Nat
  correlation_threshold : ℚ

/-- The risk_management values configured in the source JSON. -/
def riskManagementConfig : RiskManagementConfig where
  default_risk_percent := 1
  max_daily_loss_percent := 3
  max_weekly_loss_percent := 7
  max_open_positions := 5
  max_positions_per_symbol := 2
  correlation_threshold := 7/10

/-- One session window of the trading_hours section: local start/end clock
times, IANA timezone name, and active weekdays (1 = Monday .. 7 = Sunday). -/
structure SessionWindow where
  start : String
  «end» : String
  timezone : String
  active_days : List Int

/-- Shape of the trading_hours section of the trading-parameters JSON. -/
structure TradingHoursConfig where
  enabled : Bool
  sessions : List (String × SessionWindow)

/-- The trading_hours values configured in the source JSON. -/
def tradingHoursConfig : TradingHoursConfig where
  enabled := true
  sessions :=
    [ ("london",
        { start := "08:00", «end» := "16:00", timezone := "Europe/London",
          active_days := [1, 2, 3, 4, 5] }),
      ("new_york",
        { start := "08:00", «end» := "17:00", timezone := "America/New_York",
          active_days := [1, 2, 3, 4, 5] }),
      ("tokyo",
        { start := "09:00", «end» := "18:00", timezone := "Asia/Tokyo",
          active_days := [1, 2, 3, 4, 5] }) ]

/-- Shape of the news_trading section of the trading-parameters JSON. -/
structure NewsTradingConfig where
  enabled : Bool
  impact_levels : List String
  pre_news_minutes : Nat
  post_news_minutes : Nat
  avoid_trading_during_news : Bool

/-- The news_trading values configured in the source JSON. -/
def newsTradingConfig : NewsTradingConfig where
  enabled := true
  impact_levels := ["high", "medium"]
  pre_news_minutes := 30
  post_news_minutes := 60
  avoid_trading_during_news := true

/-- Modelled from the spec: fixed UTC offsets in minutes for the IANA timezone
names appearing in the configuration (standard time; daylight-saving shifts are
not modelled, and no claim depends on the London or New York offsets). -/
def tzOffsetMin (tz : String) : Int :=
  if tz = "Asia/Tokyo" then 540
  else if tz = "America/New_York" then -300
  else 0

/-- Local clock of a timezone at offset `offMin` minutes, as seconds since the
local epoch, for a UTC timestamp `t` in Unix epoch seconds. -/
def localSec (t : Nat) (offMin : Int) : Int := (t : Int) + offMin * 60

/-- Local minute of day (0 .. 1439) of UTC timestamp `t` in a timezone at
offset `offMin` minutes. -/
def localMinuteOfDay (t : Nat) (offMin : Int) : Int := (localSec t offMin).emod 86400 / 60

/-- Local ISO weekday (1 = Monday .. 7 = Sunday) of UTC timestamp `t` in a
timezone at offset `offMin` minutes; the Unix epoch fell on a Thursday. -/
def localWeekday (t : Nat) (offMin : Int) : Int :=
  ((localSec t offMin).fdiv 86400 + 3).emod 7 + 1

/-- Modelled from the spec: session membership converts the UTC timestamp into
the session's declared timezone and checks local time-of-day range and active
weekday; a window whose start is after its end wraps past local midnight. -/
def SessionWindow.activeAt (w : SessionWindow) (t : Nat) : Bool :=
  let off := tzOffsetMin w.timezone
  let tod := localMinuteOfDay t off
  let wd := localWeekday t off
  let s : Int := timeStrToMin w.start
  let e : Int := timeStrToMin w.«end»
  w.active_days.contains wd &&
    (if s ≤ e then decide (s ≤ tod) && decide (tod < e)
     else decide (s ≤ tod) || decide (tod < e))

/-- Modelled from the spec: SessionCalendar.isSessionActive looks up the named
session window in the configuration and tests it at the UTC timestamp. -/
def isSessionActive (cfg : TradingHoursConfig) (name : String) (t : Nat) : Bool :=
  match cfg.sessions.lookup name with
  | some w => w.activeAt t
  | none => false

/-- Modelled from the spec: whether any configured session window is active at
the UTC timestamp. -/
def anySessionActive (cfg : TradingHoursConfig) (t : Nat) : Bool :=
  cfg.sessions.any fun p => p.2.activeAt t

/-- A scheduled economic-calendar event: UTC time in epoch seconds and impact
level string. -/
structure NewsEvent where
  time : Nat
  impact : String

/-- Modelled from the spec: SessionCalendar.inNewsBlackout is true when the
timestamp falls within [event_time - pre_news_minutes, event_time +
post_news_minutes] for any event whose impact level is in the configured
enabled set. -/
def inNewsBlackout (cfg : NewsTradingConfig) (calendar : List NewsEvent) (t : Nat) : Bool :=
  calendar.any fun ev =>
    cfg.impact_levels.contains ev.impact &&
      (decide ((ev.time : Int) - (cfg.pre_news_minutes : Int) * 60 ≤ (t : Int)) &&
       decide ((t : Int) ≤ (ev.time : Int) + (cfg.post_news_minutes : Int) * 60))

/-- Side of an order or position. -/
inductive Side
  | buy
  | sell
deriving DecidableEq

/-- A candidate order produced by a strategy: symbol, side, requested quantity,
amount of equity put at risk (quantity times stop distance), and timestamp. -/
structure OrderIntent where
  symbol : String
  side : Side
  qty : ℚ
  riskAmount : ℚ
  timestamp : Nat
deriving DecidableEq

/-- A provisional hold on account exposure for an order not yet confirmed
filled. -/
structure Reservation where
  id : Nat
  symbol : String
  qty : ℚ
  riskAmount : ℚ
deriving DecidableEq

/-- An open position created on fill confirmation. -/
structure Position where
  id : Nat
  symbol : String
  qty : ℚ
  entryPrice : ℚ
deriving DecidableEq

/-- Modelled from the spec: the RiskLedger account record — equity, start-of-day
and start-of-week equity for drawdown measurement, open exposure, daily and
weekly realized P&L, committed positions, outstanding reservations, and the
next fresh reservation id. -/
structure Ledger where
  equity : ℚ
  startOfDayEquity : ℚ
  startOfWeekEquity : ℚ
  exposure : ℚ
  dailyPnl : ℚ
  weeklyPnl : ℚ
  positions : List Position
  reservations : List Reservation
  nextId : Nat
deriving DecidableEq

/-- Number of committed plus reserved positions of an account. -/
def openPositionCount (l : Ledger) : Nat :=
  l.positions.length + l.reservations.length

/-- Number of committed plus reserved positions of an account on one symbol. -/
def symbolCount (l : Ledger) (sym : String) : Nat :=
  (l.positions.filter fun p => p.symbol == sym).length +
    (l.reservations.filter fun r => r.symbol == sym).length

/-- Total equity at risk in outstanding reservations. -/
def reservedRisk (l : Ledger) : ℚ :=
  (l.reservations.map Reservation.riskAmount).sum

/-- Realized daily loss of the account (positive when the day is losing). -/
def dailyLoss (l : Ledger) : ℚ := -l.dailyPnl

/-- Realized weekly loss of the account (positive when the week is losing). -/
def weeklyLoss (l : Ledger) : ℚ := -l.weeklyPnl

/-- Reasons RiskGate or the ledger can reject a candidate order. -/
inductive RejectReason
  | OutsideSessionWindow
  | NewsBlackout
  | DailyLossLimitExceeded
  | WeeklyLossLimitExceeded
  | MaxOpenPositionsExceeded
  | MaxPerSymbolExceeded
  | CorrelationLimitExceeded
deriving DecidableEq

/-- Modelled from the spec: RiskLedger.reserveExposure re-validates the
position counts atomically at reservation time and, on success, adds a fresh
reservation and the intent's quantity to the account's exposure. -/
def reserveExposure (limits : RiskManagementConfig) (l : Ledger) (intent : OrderIntent) :
    Except RejectReason (Nat × Ledger) :=
  if limits.max_open_positions ≤ openPositionCount l then
    .error .MaxOpenPositionsExceeded
  else if limits.max_positions_per_symbol ≤ symbolCount l intent.symbol then
    .error .MaxPerSymbolExceeded
  else
    .ok (l.nextId,
      { l with
          reservations :=
            { id := l.nextId, symbol := intent.symbol, qty := intent.qty,
              riskAmount := intent.riskAmount } :: l.reservations
          exposure := l.exposure + intent.qty
          nextId := l.nextId + 1 })

/-- Modelled from the spec: RiskLedger.commitReservation converts a reservation
into a real Position at the fill price and quantity; a second call on the same
id finds no reservation and is a no-op. -/
def commitReservation (l : Ledger) (id : Nat) (fillPrice fillQty : ℚ) : Ledger :=
  match l.reservations.find? (fun r => r.id == id) with
  | none => l
  | some r =>
    { l with
        reservations := l.reservations.filter fun r2 => r2.id != id
        positions :=
          { id := r.id, symbol := r.symbol, qty := fillQty, entryPrice := fillPrice } ::
            l.positions
        exposure := l.exposure - r.qty + fillQty }

/-- Modelled from the spec: RiskLedger.releaseReservation drops a reservation
and its exposure; it is idempotent and safe to call multiple times. -/
def releaseReservation (l : Ledger) (id : Nat) : Ledger :=
  match l.reservations.find? (fun r => r.id == id) with
  | none => l
  | some r =>
    { l with
        reservations := l.reservations.filter fun r2 => r2.id != id
        exposure := l.exposure - r.qty }

/-- Modelled from the spec: RiskLedger.recordClose destroys the position and
applies its realized P&L to equity and to the daily and weekly counters. -/
def recordClose (l : Ledger) (pid : Nat) (pnl : ℚ) : Ledger :=
  match l.positions.find? (fun p => p.id == pid) with
  | none => l
  | some p =>
    { l with
        positions := l.positions.filter fun p2 => p2.id != pid
        exposure := l.exposure - p.qty
        equity := l.equity + pnl
        dailyPnl := l.dailyPnl + pnl
        weeklyPnl := l.weeklyPnl + pnl }

/-- Modelled from the spec: the daily P&L counter rolls over at the trading-day
boundary, resetting the daily counter and re-basing start-of-day equity. -/
def rolloverTradingDay (l : Ledger) : Ledger :=
  { l with dailyPnl := 0, startOfDayEquity := l.equity }

/-- Error of the position sizer. -/
inductive SizeError
  | InsufficientEquity
deriving DecidableEq

/-- Quantity floored to the instrument's minimum lot/step size. -/
def floorToStep (x step : ℚ) : ℚ := ⌊x / step⌋ * step

/-- Modelled from the spec: PositionSizer.computeSize puts
equity * (riskPercentOverride, or default_risk_percent) / 100 at risk, divides
by the stop-loss distance, floors to the lot step, and fails with
InsufficientEquity when the quantity rounds to zero. -/
def computeSize (account : Ledger) (limits : RiskManagementConfig)
    (stopLossDistance lotStep : ℚ) (riskPercentOverride : Option ℚ) :
    Except SizeError ℚ :=
  let riskPercent := riskPercentOverride.getD limits.default_risk_percent
  let riskAmount := account.equity * riskPercent / 100
  let qty := floorToStep (riskAmount / stopLossDistance) lotStep
  if qty = 0 then .error .InsufficientEquity else .ok qty

/-- Modelled from the spec: RiskGate check 1 — reject OutsideSessionWindow when
trading hours are enabled and no configured session is active. -/
def checkTradingHours (cfg : TradingHoursConfig) (t : Nat) : Option RejectReason :=
  if cfg.enabled && !anySessionActive cfg t then some .OutsideSessionWindow else none

/-- Modelled from the spec: RiskGate check 2 — reject NewsBlackout when
avoid_trading_during_news is set and a news blackout is in effect. -/
def checkNewsBlackout (cfg : NewsTradingConfig) (calendar : List NewsEvent) (t : Nat) :
    Option RejectReason :=
  if cfg.avoid_trading_during_news && inNewsBlackout cfg calendar t then
    some .NewsBlackout
  else none

/-- Modelled from the spec: RiskGate check 3 — reject when realized plus
reserved loss reaches the configured percentage of starting equity, daily
before weekly. -/
def checkDrawdown (limits : RiskManagementConfig) (l : Ledger) : Option RejectReason :=
  if limits.max_daily_loss_percent / 100 * l.startOfDayEquity ≤ dailyLoss l + reservedRisk l then
    some .DailyLossLimitExceeded
  else if limits.max_weekly_loss_percent / 100 * l.startOfWeekEquity ≤ weeklyLoss l + reservedRisk l then
    some .WeeklyLossLimitExceeded
  else none

/-- Modelled from the spec: RiskGate check 4 — reject MaxOpenPositionsExceeded
when committed+reserved positions are at or above max_open_positions, then
MaxPerSymbolExceeded likewise for the symbol. -/
def checkPositionCount (limits : RiskManagementConfig) (l : Ledger) (sym : String) :
    Option RejectReason :=
  if limits.max_open_positions ≤ openPositionCount l then
    some .MaxOpenPositionsExceeded
  else if limits.max_positions_per_symbol ≤ symbolCount l sym then
    some .MaxPerSymbolExceeded
  else none

/-- Symbols of the account's already-open positions. -/
def openSymbols (l : Ledger) : List String := l.positions.map Position.symbol

/-- Modelled from the spec: RiskGate check 5 — reject CorrelationLimitExceeded
when the candidate symbol's correlation with any open symbol exceeds the
threshold; the correlation matrix is an external read-only input. -/
def checkCorrelation (limits : RiskManagementConfig) (corr : String → String → ℚ)
    (l : Ledger) (sym : String) : Option RejectReason :=
  if (openSymbols l).any fun s => decide (limits.correlation_threshold < corr sym s) then
    some .CorrelationLimitExceeded
  else none

/-- Result of RiskGate.validate. -/
inductive ValidationResult
  | Approved
  | Rejected (reason : RejectReason)
deriving DecidableEq

/-- Modelled from the spec: RiskGate.validate applies the five checks in order
— trading hours, news blackout, drawdown, position count, correlation —
short-circuiting on the first failure. -/
def validate (intent : OrderIntent) (l : Ledger) (limits : RiskManagementConfig)
    (th : TradingHoursConfig) (nt : NewsTradingConfig) (calendar : List NewsEvent)
    (corr : String → String → ℚ) : ValidationResult :=
  match checkTradingHours th intent.timestamp with
  | some r => .Rejected r
  | none =>
    match checkNewsBlackout nt calendar intent.timestamp with
    | some r => .Rejected r
    | none =>
      match checkDrawdown limits l with
      | some r => .Rejected r
      | none =>
        match checkPositionCount limits l intent.symbol with
        | some r => .Rejected r
        | none =>
          match checkCorrelation limits corr l intent.symbol with
          | some r => .Rejected r
          | none => .Approved

/-- The five checks of RiskGate.validate, in the order they are applied. -/
def riskChecks (intent : OrderIntent) (l : Ledger) (limits : RiskManagementConfig)
    (th : TradingHoursConfig) (nt : NewsTradingConfig) (calendar : List NewsEvent)
    (corr : String → String → ℚ) : List (Option RejectReason) :=
  [ checkTradingHours th intent.timestamp,
    checkNewsBlackout nt calendar intent.timestamp,
    checkDrawdown limits l,
    checkPositionCount limits l intent.symbol,
    checkCorrelation limits corr l intent.symbol ]

/-- One ledger mutation: a reserveExposure attempt (rejections leave the ledger
unchanged), a commitReservation, or a releaseReservation. -/
inductive LedgerOp
  | reserve (intent : OrderIntent)
  | commit (id : Nat) (fillPrice fillQty : ℚ)
  | release (id : Nat)

/-- Apply one ledger operation. -/
def applyOp (limits : RiskManagementConfig) (l : Ledger) (op : LedgerOp) : Ledger :=
  match op with
  | .reserve intent =>
    match reserveExposure limits l intent with
    | .ok res => res.2
    | .error _ => l
  | .commit id fillPrice fillQty => commitReservation l id fillPrice fillQty
  | .release id => releaseReservation l id

/-- Apply a sequence of ledger operations from left to right. -/
def applyOps (limits : RiskManagementConfig) (l : Ledger) (ops : List LedgerOp) : Ledger :=
  ops.foldl (applyOp limits) l

/-- Well-formed ledger: every position and reservation id is below the next
fresh id, as reserveExposure allocates ids in order. -/
def Ledger.WF (l : Ledger) : Prop :=
  (∀ p ∈ l.positions, p.id < l.nextId) ∧ (∀ r ∈ l.reservations, r.id < l.nextId)

/-- One row of the MetaTrader5 deal history fetched by the backtesting
notebook; the time field is in Unix epoch seconds, as history_deals_get
returns it. -/
structure Deal where
  ticket : Nat
  time : Nat
  symbol : String
  profit : ℚ
deriving DecidableEq

/-- The notebook's pd.to_datetime conversion of the time column from epoch
seconds, modelled as the pair (days since epoch, second of day). -/
def epochToDatetime (t : Nat) : Nat × Nat := (t / 86400, t % 86400)

/-- Lexicographic comparison of two converted datetimes. -/
def datetimeLe (a b : Nat × Nat) : Bool :=
  decide (a.1 < b.1) || (a.1 == b.1 && decide (a.2 ≤ b.2))

/-- Row ordering used by the notebook's sort_values on the converted time
column. -/
def dealTimeLe (a b : Deal) : Bool :=
  datetimeLe (epochToDatetime a.time) (epochToDatetime b.time)

/-- The notebook's DataFrame.sort_values by the converted time column. -/
def sortByTime (ds : List Deal) : List Deal := ds.mergeSort dealTimeLe

/-- Outcomes of the external calls made by export_trade_history_to_csv: the
MetaTrader5 initialize result, the two datetime.strptime parses, the
history_deals_get fetch (an Except error models a raised exception and the
none payload models its None return), and the CSV write covering makedirs and
to_csv (an Except error models a raised exception). -/
structure MT5Env where
  initOk : Bool
  parseStart : Except String Nat
  parseEnd : Except String Nat
  historyDealsGet : Nat → Nat → Except String (Option (List Deal))
  writeCsv : List Deal → Except String Unit

/-- The notebook's export_trade_history_to_csv, returning its boolean result
paired with the rows written to the CSV file (none when no file was written).
Each (false, none) branch mirrors a return False path of the source: failed
initialization, a raised strptime, a raised or empty history_deals_get, or a
raised CSV write. -/
def export_trade_history_to_csv (env : MT5Env) : Bool × Option (List Deal) :=
  if !env.initOk then (false, none)
  else
    match env.parseStart with
    | .error _ => (false, none)
    | .ok fromDate =>
      match env.parseEnd with
      | .error _ => (false, none)
      | .ok toDate =>
        match env.historyDealsGet fromDate toDate with
        | .error _ => (false, none)
        | .ok none => (false, none)
        | .ok (some deals) =>
          if deals.length = 0 then (false, none)
          else
            match env.writeCsv (sortByTime deals) with
            | .error _ => (false, none)
            | .ok _ => (true, some (sortByTime deals))

/-- An account with 10000 equity and nothing open, measured against drawdown
baselines of 100, used as a concrete input for witnesses. -/
def emptyLedger : Ledger where
  equity := 10000
  startOfDayEquity := 100
  startOfWeekEquity := 100
  exposure := 0
  dailyPnl := 0
  weeklyPnl := 0
  positions := []
  reservations := []
  nextId := 0

/-- A concrete candidate order during the Tokyo session (Monday 1970-01-05
01:00 UTC, 10:00 Asia/Tokyo). -/
def sampleIntent : OrderIntent where
  symbol := "EURUSD"
  side := .buy
  qty := 20000
  riskAmount := 100
  timestamp := 349200

/-- A concrete open position used to populate ledgers in witnesses. -/
def posOn (i : Nat) (sym : String) : Position where
  id := i
  symbol := sym
  qty := 1
  entryPrice := 1

/-- An account already holding max_open_positions = 5 committed positions. -/
def fullLedger : Ledger :=
  { emptyLedger with
      positions :=
        [posOn 0 "EURUSD", posOn 1 "GBPUSD", posOn 2 "USDJPY",
          posOn 3 "AUDUSD", posOn 4 "USDCAD"]
      nextId := 5 }

/-- An account whose realized daily loss stands exactly at 3% of its 100
start-of-day equity. -/
def lossLedger : Ledger := { emptyLedger with equity := 9997, dailyPnl := -3 }

/-- A concrete candidate order at a Saturday timestamp (1970-01-03 12:00 UTC),
outside every configured session. -/
def saturdayIntent : OrderIntent where
  symbol := "EURUSD"
  side := .buy
  qty := 1
  riskAmount := 1
  timestamp := 216000

/-- The ledger produced by reserving sampleIntent on emptyLedger. -/
def reservedLedger : Ledger :=
  { emptyLedger with
      reservations := [{ id := 0, symbol := "EURUSD", qty := 20000, riskAmount := 100 }]
      exposure := 0 + 20000
      nextId := 0 + 1 }

/-- Concrete deal rows, deliberately out of time order. -/
def sampleDeals : List Deal :=
  [{ ticket := 2, time := 100000, symbol := "EURUSD", profit := 5 },
    { ticket := 1, time := 500, symbol := "EURUSD", profit := -3 }]

/-- A concrete environment in which every external call of the notebook
function succeeds. -/
def okEnv : MT5Env where
  initOk := true
  parseStart := .ok 0
  parseEnd := .ok 86400
  historyDealsGet := fun _ _ => .ok (some sampleDeals)
  writeCsv := fun _ => .ok ()

theorem length_filter_bne_lt {α : Type} (f : α → Nat) (i : Nat) :
    ∀ (l : List α) (a : α), l.find? (fun x => f x == i) = some a →
      (l.filter fun x => f x != i).length < l.length := by
  intro l
  induction l with
  | nil => intro a h; simp at h
  | cons b t ih =>
    intro a h
    cases hb : (f b == i) with
    | true =>
      have hle := List.length_filter_le (fun x => f x != i) t
      rw [List.filter_cons, if_neg (by simp [bne, hb] : ¬ ((f b != i) = true))]
      simp only [List.length_cons]
      omega
    | false =>
      rw [List.find?_cons_of_neg (p := fun x => f x == i) t (by simp [hb])] at h
      have hlt := ih a h
      rw [List.filter_cons, if_pos (by simp [bne, hb] : ((f b != i) = true))]
      simp only [List.length_cons]
      omega

theorem find?_filter_bne {α : Type} (f : α → Nat) (i : Nat) (l : List α) :
    (l.filter fun x => f x != i).find? (fun x => f x == i) = none := by
  rw [List.find?_eq_none]
  intro x hx
  have hmem := (List.mem_filter.mp hx).2
  simp only [bne_iff_ne, ne_eq] at hmem
  simpa using hmem

theorem openPositionCount_applyOp_le (limits : RiskManagementConfig) (l : Ledger)
    (op : LedgerOp) (h : openPositionCount l ≤ limits.max_open_positions) :
    openPositionCount (applyOp limits l op) ≤ limits.max_open_positions := by
  cases op with
  | reserve intent =>
    by_cases h1 : limits.max_open_positions ≤ openPositionCount l
    · simp only [applyOp, reserveExposure, if_pos h1]
      exact h
    · by_cases h2 : limits.max_positions_per_symbol ≤ symbolCount l intent.symbol
      · simp only [applyOp, reserveExposure, if_neg h1, if_pos h2]
        exact h
      · simp only [applyOp, reserveExposure, if_neg h1, if_neg h2]
        simp only [openPositionCount, List.length_cons] at h1 ⊢
        omega
  | commit i fp fq =>
    cases hf : l.reservations.find? (fun r => r.id == i) with
    | none => simpa only [applyOp, commitReservation, hf] using h
    | some r =>
      have hlt := length_filter_bne_lt Reservation.id i l.reservations r hf
      simp only [applyOp, commitReservation, hf, openPositionCount, List.length_cons] at *
      omega
  | release i =>
    cases hf : l.reservations.find? (fun r => r.id == i) with
    | none => simpa only [applyOp, releaseReservation, hf] using h
    | some r =>
      have hle := List.length_filter_le (fun x : Reservation => x.id != i) l.reservations
      simp only [applyOp, releaseReservation, hf, openPositionCount] at *
      omega

theorem openPositionCount_applyOps_le (limits : RiskManagementConfig) (l : Ledger)
    (ops : List LedgerOp) (h : openPositionCount l ≤ limits.max_open_positions) :
    openPositionCount (applyOps limits l ops) ≤ limits.max_open_positions := by
  induction ops generalizing l with
  | nil => simpa [applyOps] using h
  | cons op rest ih =>
    simp only [applyOps, List.foldl_cons]
    exact ih _ (openPositionCount_applyOp_le limits l op h)

/-- C1: over every sequence of reserveExposure, commitReservation and
releaseReservation calls on one account the committed+reserved position count
never exceeds the configured max_open_positions = 5, and the RiskGate
position-count check rejects with MaxOpenPositionsExceeded whenever an account
is already at or above the limit. -/
theorem max_open_positions_invariant (l : Ledger) (ops : List LedgerOp)
    (h : openPositionCount l ≤ 5) :
    openPositionCount (applyOps riskManagementConfig l ops) ≤ 5 ∧
      (∀ (l' : Ledger) (sym : String), 5 ≤ openPositionCount l' →
        checkPositionCount riskManagementConfig l' sym = some .MaxOpenPositionsExceeded) ∧
      ∀ (l' : Ledger) (intent : OrderIntent) (th : TradingHoursConfig)
        (nt : NewsTradingConfig) (calendar : List NewsEvent) (corr : String → String → ℚ),
        5 ≤ openPositionCount l' →
        validate intent l' riskManagementConfig th nt calendar corr ≠ .Approved := by
  have hcheck : ∀ (l' : Ledger) (sym : String), 5 ≤ openPositionCount l' →
      checkPositionCount riskManagementConfig l' sym = some .MaxOpenPositionsExceeded := by
    intro l' sym h'
    simp only [checkPositionCount]
    rw [if_pos (show riskManagementConfig.max_open_positions ≤ openPositionCount l' from h')]
  refine ⟨openPositionCount_applyOps_le riskManagementConfig l ops h, hcheck, ?_⟩
  intro l' intent th nt calendar corr h'
  unfold validate
  cases checkTradingHours th intent.timestamp with
  | some r => simp
  | none =>
    cases checkNewsBlackout nt calendar intent.timestamp with
    | some r => simp
    | none =>
      cases checkDrawdown riskManagementConfig l' with
      | some r => simp
      | none => simp [hcheck l' intent.symbol h']

/-- Closed witness for C1: a concrete reserve/commit/reserve/release sequence
on the empty account stays within the limit, and the account holding five
positions is rejected with MaxOpenPositionsExceeded. -/
theorem max_open_positions_invariant_witness :
    openPositionCount (applyOps riskManagementConfig emptyLedger
        [.reserve sampleIntent, .commit 0 1 20000, .reserve sampleIntent, .release 1]) ≤ 5 ∧
      checkPositionCount riskManagementConfig fullLedger "EURUSD" =
        some .MaxOpenPositionsExceeded ∧
      validate sampleIntent fullLedger riskManagementConfig tradingHoursConfig
        newsTradingConfig [] (fun _ _ => 0) ≠ .Approved := by
  have h := max_open_positions_invariant emptyLedger
    [.reserve sampleIntent, .commit 0 1 20000, .reserve sampleIntent, .release 1] (by decide)
  exact ⟨h.1, h.2.1 fullLedger "EURUSD" (by decide),
    h.2.2 fullLedger sampleIntent tradingHoursConfig newsTradingConfig [] (fun _ _ => 0)
      (by decide)⟩

/-- C3: reserving an intent, committing it at the fill, then closing it with
realized pnl returns equity to its pre-trade value plus the pnl, returns
exposure and the position and reservation sets exactly to their pre-trade
values, moves the daily and weekly P&L counters by exactly the realized pnl,
and leaves the drawdown baselines untouched. -/
theorem reserve_commit_close_round_trip (limits : RiskManagementConfig) (l : Ledger)
    (intent : OrderIntent) (fillPrice fillQty pnl : ℚ) (rid : Nat) (l1 : Ledger)
    (hwf : l.WF) (hres : reserveExposure limits l intent = .ok (rid, l1)) :
    (recordClose (commitReservation l1 rid fillPrice fillQty) rid pnl).equity = l.equity + pnl ∧
      (recordClose (commitReservation l1 rid fillPrice fillQty) rid pnl).exposure = l.exposure ∧
      (recordClose (commitReservation l1 rid fillPrice fillQty) rid pnl).positions = l.positions ∧
      (recordClose (commitReservation l1 rid fillPrice fillQty) rid pnl).reservations =
        l.reservations ∧
      (recordClose (commitReservation l1 rid fillPrice fillQty) rid pnl).dailyPnl =
        l.dailyPnl + pnl ∧
      (recordClose (commitReservation l1 rid fillPrice fillQty) rid pnl).weeklyPnl =
        l.weeklyPnl + pnl ∧
      (recordClose (commitReservation l1 rid fillPrice fillQty) rid pnl).startOfDayEquity =
        l.startOfDayEquity ∧
      (recordClose (commitReservation l1 rid fillPrice fillQty) rid pnl).startOfWeekEquity =
        l.startOfWeekEquity := by
  have h1 : ¬ limits.max_open_positions ≤ openPositionCount l := by
    intro hc
    rw [reserveExposure, if_pos hc] at hres
    exact Except.noConfusion hres
  have h2 : ¬ limits.max_positions_per_symbol ≤ symbolCount l intent.symbol := by
    intro hc
    rw [reserveExposure, if_neg h1, if_pos hc] at hres
    exact Except.noConfusion hres
  simp only [reserveExposure, if_neg h1, if_neg h2, Except.ok.injEq, Prod.mk.injEq] at hres
  obtain ⟨hrid, hl1⟩ := hres
  subst hrid
  subst hl1
  have hfilterR : (l.reservations.filter fun r2 => r2.id != l.nextId) = l.reservations := by
    rw [List.filter_eq_self]
    intro r hr
    simpa [bne_iff_ne] using Nat.ne_of_lt (hwf.2 r hr)
  have hfilterP : (l.positions.filter fun p2 => p2.id != l.nextId) = l.positions := by
    rw [List.filter_eq_self]
    intro p hp
    simpa [bne_iff_ne] using Nat.ne_of_lt (hwf.1 p hp)
  refine ⟨?_, ?_, ?_, ?_, ?_, ?_, ?_, ?_⟩ <;>
    simp [commitReservation, recordClose, List.find?_cons, hfilterR, hfilterP,
      List.filter_cons]

/-- Closed witness for C3: the concrete reserve/commit/close cycle of
sampleIntent on the empty account, with fill price 3/2 and realized pnl 50. -/
theorem reserve_commit_close_round_trip_witness :
    (recordClose (commitReservation reservedLedger 0 (3/2) 20000) 0 50).equity =
        emptyLedger.equity + 50 ∧
      (recordClose (commitReservation reservedLedger 0 (3/2) 20000) 0 50).exposure =
        emptyLedger.exposure ∧
      (recordClose (commitReservation reservedLedger 0 (3/2) 20000) 0 50).positions =
        emptyLedger.positions ∧
      (recordClose (commitReservation reservedLedger 0 (3/2) 20000) 0 50).reservations =
        emptyLedger.reservations ∧
      (recordClose (commitReservation reservedLedger 0 (3/2) 20000) 0 50).dailyPnl =
        emptyLedger.dailyPnl + 50 ∧
      (recordClose (commitReservation reservedLedger 0 (3/2) 20000) 0 50).weeklyPnl =
        emptyLedger.weeklyPnl + 50 ∧
      (recordClose (commitReservation reservedLedger 0 (3/2) 20000) 0 50).startOfDayEquity =
        emptyLedger.startOfDayEquity ∧
      (recordClose (commitReservation reservedLedger 0 (3/2) 20000) 0 50).startOfWeekEquity =
        emptyLedger.startOfWeekEquity :=
  reserve_commit_close_round_trip riskManagementConfig emptyLedger sampleIntent
    (3/2) 20000 50 0 reservedLedger (by simp [Ledger.WF, emptyLedger]) (by rfl)

/-- C4: releaseReservation and commitReservation are idempotent — calling
either a second time on the same reservation id leaves the account state
unchanged, and no failure is raised (both are total functions). -/
theorem release_commit_idempotent (l : Ledger) (i : Nat) (fillPrice fillQty : ℚ) :
    releaseReservation (releaseReservation l i) i = releaseReservation l i ∧
      commitReservation (commitReservation l i fillPrice fillQty) i fillPrice fillQty =
        commitReservation l i fillPrice fillQty := by
  constructor
  · cases h : l.reservations.find? (fun r => r.id == i) with
    | none =>
      simp only [releaseReservation, h]
    | some r =>
      have hinner : releaseReservation l i =
          { l with
              reservations := l.reservations.filter fun r2 => r2.id != i
              exposure := l.exposure - r.qty } := by
        rw [releaseReservation, h]
      rw [hinner]
      conv_lhs => rw [releaseReservation]
      simp only [find?_filter_bne Reservation.id i]
  · cases h : l.reservations.find? (fun r => r.id == i) with
    | none =>
      simp only [commitReservation, h]
    | some r =>
      have hinner : commitReservation l i fillPrice fillQty =
          { l with
              reservations := l.reservations.filter fun r2 => r2.id != i
              positions :=
                { id := r.id, symbol := r.symbol, qty := fillQty, entryPrice := fillPrice } ::
                  l.positions
              exposure := l.exposure - r.qty + fillQty } := by
        rw [commitReservation, h]
      rw [hinner]
      conv_lhs => rw [commitReservation]
      simp only [find?_filter_bne Reservation.id i]

/-- C2 (amended): once the account's realized-plus-reserved daily loss reaches
3% of start-of-day equity, no subsequent validate call on the account
approves; the rejection reason is DailyLossLimitExceeded whenever the earlier
trading-hours and news-blackout checks pass; and the lock lasts until the
trading-day rollover resets the realized daily loss. -/
theorem daily_loss_lockout (l : Ledger) (intent : OrderIntent)
    (calendar : List NewsEvent) (corr : String → String → ℚ)
    (hloss : 3 / 100 * l.startOfDayEquity ≤ dailyLoss l + reservedRisk l) :
    validate intent l riskManagementConfig tradingHoursConfig newsTradingConfig calendar
        corr ≠ .Approved ∧
      (checkTradingHours tradingHoursConfig intent.timestamp = none →
        checkNewsBlackout newsTradingConfig calendar intent.timestamp = none →
        validate intent l riskManagementConfig tradingHoursConfig newsTradingConfig calendar
          corr = .Rejected .DailyLossLimitExceeded) ∧
      dailyLoss (rolloverTradingDay l) = 0 := by
  have hdd : checkDrawdown riskManagementConfig l = some .DailyLossLimitExceeded := by
    rw [checkDrawdown,
      if_pos (show riskManagementConfig.max_daily_loss_percent / 100 * l.startOfDayEquity ≤
        dailyLoss l + reservedRisk l from hloss)]
  refine ⟨?_, ?_, by simp [dailyLoss, rolloverTradingDay]⟩
  · unfold validate
    cases h1 : checkTradingHours tradingHoursConfig intent.timestamp with
    | some r1 => simp
    | none =>
      cases h2 : checkNewsBlackout newsTradingConfig calendar intent.timestamp with
      | some r2 => simp
      | none => simp [hdd]
  · intro h1 h2
    simp only [validate, h1, h2, hdd]

/-- C2 counterexample: with realized daily loss already at 3% of start-of-day
equity, a validate call at a Saturday timestamp still rejects, but with
OutsideSessionWindow rather than DailyLossLimitExceeded, because the
trading-hours check runs first. -/
theorem daily_loss_lockout_cex :
    3 / 100 * lossLedger.startOfDayEquity ≤ dailyLoss lossLedger + reservedRisk lossLedger ∧
      validate saturdayIntent lossLedger riskManagementConfig tradingHoursConfig
          newsTradingConfig [] (fun _ _ => 0) = .Rejected .OutsideSessionWindow ∧
      ValidationResult.Rejected RejectReason.OutsideSessionWindow ≠
        .Rejected .DailyLossLimitExceeded := by
  refine ⟨by norm_num [lossLedger, emptyLedger, dailyLoss, reservedRisk], ?_, by simp⟩
  have h1 : checkTradingHours tradingHoursConfig saturdayIntent.timestamp =
      some .OutsideSessionWindow := by decide
  simp only [validate, h1]

/-- Closed witness for C2 at the loss-capped account and a Tokyo-session
timestamp with an empty news calendar. -/
theorem daily_loss_lockout_witness :
    validate sampleIntent lossLedger riskManagementConfig tradingHoursConfig newsTradingConfig
        [] (fun _ _ => 0) ≠ .Approved ∧
      validate sampleIntent lossLedger riskManagementConfig tradingHoursConfig newsTradingConfig
        [] (fun _ _ => 0) = .Rejected .DailyLossLimitExceeded := by
  have h := daily_loss_lockout lossLedger sampleIntent [] (fun _ _ => 0)
    (by simp [lossLedger, emptyLedger, dailyLoss, reservedRisk])
  exact ⟨h.1, h.2.1 (by decide) (by decide)⟩

theorem inNewsBlackout_iff (cfg : NewsTradingConfig) (calendar : List NewsEvent) (t : Nat) :
    inNewsBlackout cfg calendar t = true ↔
      ∃ ev ∈ calendar, ev.impact ∈ cfg.impact_levels ∧
        (ev.time : Int) - (cfg.pre_news_minutes : Int) * 60 ≤ (t : Int) ∧
        (t : Int) ≤ (ev.time : Int) + (cfg.post_news_minutes : Int) * 60 := by
  simp [inNewsBlackout, List.any_eq_true, List.contains_iff_exists_mem_beq, and_assoc]

/-- C5: holding the other RiskGate checks passing, validate rejects with
NewsBlackout exactly when the intent's timestamp lies within
[event_time - 30min, event_time + 60min] of some scheduled event with an
enabled impact level (the configuration sets avoid_trading_during_news, with
pre = 30 and post = 60 minutes), and approves otherwise. -/
theorem news_blackout_gate (intent : OrderIntent) (l : Ledger) (calendar : List NewsEvent)
    (corr : String → String → ℚ)
    (h1 : checkTradingHours tradingHoursConfig intent.timestamp = none)
    (h3 : checkDrawdown riskManagementConfig l = none)
    (h4 : checkPositionCount riskManagementConfig l intent.symbol = none)
    (h5 : checkCorrelation riskManagementConfig corr l intent.symbol = none) :
    (validate intent l riskManagementConfig tradingHoursConfig newsTradingConfig calendar corr =
        .Rejected .NewsBlackout ↔
      ∃ ev ∈ calendar, ev.impact ∈ newsTradingConfig.impact_levels ∧
        (ev.time : Int) - 30 * 60 ≤ (intent.timestamp : Int) ∧
        (intent.timestamp : Int) ≤ (ev.time : Int) + 60 * 60) ∧
    (validate intent l riskManagementConfig tradingHoursConfig newsTradingConfig calendar corr =
        .Approved ↔
      ¬ ∃ ev ∈ calendar, ev.impact ∈ newsTradingConfig.impact_levels ∧
        (ev.time : Int) - 30 * 60 ≤ (intent.timestamp : Int) ∧
        (intent.timestamp : Int) ≤ (ev.time : Int) + 60 * 60) := by
  have hiff := inNewsBlackout_iff newsTradingConfig calendar intent.timestamp
  have hpre : ((newsTradingConfig.pre_news_minutes : Int)) = 30 := by norm_num [newsTradingConfig]
  have hpost : ((newsTradingConfig.post_news_minutes : Int)) = 60 := by norm_num [newsTradingConfig]
  rw [hpre, hpost] at hiff
  cases hb : inNewsBlackout newsTradingConfig calendar intent.timestamp with
  | true =>
    have h2 : checkNewsBlackout newsTradingConfig calendar intent.timestamp =
        some .NewsBlackout := by
      rw [checkNewsBlackout, if_pos (by rw [hb]; rfl)]
    have hE := hiff.mp hb
    have hv : validate intent l riskManagementConfig tradingHoursConfig newsTradingConfig
        calendar corr = .Rejected .NewsBlackout := by
      rw [validate, h1, h2]
    rw [hv]
    exact ⟨⟨fun _ => hE, fun _ => rfl⟩,
      ⟨fun hc => ValidationResult.noConfusion hc, fun hn => absurd hE hn⟩⟩
  | false =>
    have h2 : checkNewsBlackout newsTradingConfig calendar intent.timestamp = none := by
      rw [checkNewsBlackout, if_neg (by rw [hb]; simp)]
    have hnE : ¬ ∃ ev ∈ calendar, ev.impact ∈ newsTradingConfig.impact_levels ∧
        (ev.time : Int) - 30 * 60 ≤ (intent.timestamp : Int) ∧
        (intent.timestamp : Int) ≤ (ev.time : Int) + 60 * 60 := by
      intro hE'
      rw [hiff.mpr hE'] at hb
      simp at hb
    have hv : validate intent l riskManagementConfig tradingHoursConfig newsTradingConfig
        calendar corr = .Approved := by
      rw [validate, h1, h2, h3, h4, h5]
    rw [hv]
    exact ⟨⟨fun hc => ValidationResult.noConfusion hc, fun hE' => absurd hE' hnE⟩,
      ⟨fun _ => hnE, fun _ => rfl⟩⟩

/-- Closed witness for C5: with a high-impact event 10 minutes before the
Tokyo-session timestamp, validate rejects with NewsBlackout. -/
theorem news_blackout_gate_witness :
    validate sampleIntent emptyLedger riskManagementConfig tradingHoursConfig newsTradingConfig
        [{ time := 348600, impact := "high" }] (fun _ _ => 0) = .Rejected .NewsBlackout := by
  have h := news_blackout_gate sampleIntent emptyLedger [{ time := 348600, impact := "high" }]
    (fun _ _ => 0) (by decide)
    (by simp +decide [checkDrawdown, riskManagementConfig, emptyLedger, dailyLoss, weeklyLoss,
      reservedRisk])
    (by decide) (by decide)
  exact h.1.mpr ⟨{ time := 348600, impact := "high" }, by simp, by simp [newsTradingConfig],
    by decide, by decide⟩

/-- C6: isSessionActive for "tokyo" is true exactly when the Asia/Tokyo local
time of the timestamp lies within 09:00–18:00 (minutes 540 to 1080 of the
local day) on a local weekday in {1,2,3,4,5}. -/
theorem tokyo_session_iff (t : Nat) :
    isSessionActive tradingHoursConfig "tokyo" t = true ↔
      (localWeekday t 540 ∈ ([1, 2, 3, 4, 5] : List Int) ∧
        540 ≤ localMinuteOfDay t 540 ∧ localMinuteOfDay t 540 < 1080) := by
  have hlook : tradingHoursConfig.sessions.lookup "tokyo" =
      some { start := "09:00", «end» := "18:00", timezone := "Asia/Tokyo",
             active_days := [1, 2, 3, 4, 5] } := by rfl
  have hoff : tzOffsetMin "Asia/Tokyo" = 540 := by decide
  have hs : (timeStrToMin "09:00" : Int) = 540 := by decide
  have he : (timeStrToMin "18:00" : Int) = 1080 := by decide
  rw [isSessionActive, hlook]
  simp only [SessionWindow.activeAt, hoff, hs, he]
  simp [List.contains_iff_exists_mem_beq, and_assoc]

/-- Closed witness for C6 at the Tokyo-session timestamp (Monday 10:00 local
time). -/
theorem tokyo_session_iff_witness :
    isSessionActive tradingHoursConfig "tokyo" 349200 = true :=
  (tokyo_session_iff 349200).mpr (by decide)

/-- C7: computeSize fails with InsufficientEquity exactly when the computed
quantity rounds to zero, and otherwise returns the floor-to-lot-step of
equity * (riskPercentOverride, or the configured default 1.0) / 100 divided by
the stop-loss distance; at equity 10000, the default risk percent, stop
distance 0.0050 and unit lot step it returns 20000 units. -/
theorem computeSize_spec (account : Ledger) (stopLossDistance lotStep : ℚ)
    (riskPercentOverride : Option ℚ) :
    (computeSize account riskManagementConfig stopLossDistance lotStep riskPercentOverride =
        .error .InsufficientEquity ↔
      floorToStep (account.equity * (riskPercentOverride.getD 1) / 100 / stopLossDistance)
        lotStep = 0) ∧
    (floorToStep (account.equity * (riskPercentOverride.getD 1) / 100 / stopLossDistance)
        lotStep ≠ 0 →
      computeSize account riskManagementConfig stopLossDistance lotStep riskPercentOverride =
        .ok (floorToStep (account.equity * (riskPercentOverride.getD 1) / 100 /
          stopLossDistance) lotStep)) ∧
    computeSize emptyLedger riskManagementConfig (5 / 1000) 1 none = .ok 20000 := by
  have hd : riskManagementConfig.default_risk_percent = 1 := rfl
  have hcs : computeSize account riskManagementConfig stopLossDistance lotStep
      riskPercentOverride =
      if floorToStep (account.equity * (riskPercentOverride.getD 1) / 100 / stopLossDistance)
          lotStep = 0 then
        .error .InsufficientEquity
      else
        .ok (floorToStep (account.equity * (riskPercentOverride.getD 1) / 100 /
          stopLossDistance) lotStep) := by
    simp only [computeSize, hd]
  rw [hcs]
  refine ⟨?_, ?_, ?_⟩
  · by_cases hq : floorToStep (account.equity * (riskPercentOverride.getD 1) / 100 /
        stopLossDistance) lotStep = 0
    · simp [hq]
    · simp [hq]
  · intro hq
    rw [if_neg hq]
  · norm_num [computeSize, floorToStep, emptyLedger, riskManagementConfig]

/-- Closed witness for C7: the configured worked example, 10000 equity at the
default risk percent with a 50-pip stop on a 5-digit pair. -/
theorem computeSize_spec_witness :
    computeSize emptyLedger riskManagementConfig (5 / 1000) 1 none = .ok 20000 :=
  (computeSize_spec emptyLedger (5 / 1000) 1 none).2.2

/-- C8: validate applies its five checks in the fixed order trading-hours,
news blackout, drawdown, position count, correlation, short-circuiting on the
first failure: its result is the rejection reason of the earliest failing
check, and approval exactly when every check passes. -/
theorem validate_earliest_failure (intent : OrderIntent) (l : Ledger)
    (limits : RiskManagementConfig) (th : TradingHoursConfig) (nt : NewsTradingConfig)
    (calendar : List NewsEvent) (corr : String → String → ℚ) :
    validate intent l limits th nt calendar corr =
      match (riskChecks intent l limits th nt calendar corr).findSome? id with
      | some r => .Rejected r
      | none => .Approved := by
  rw [validate, riskChecks]
  cases h1 : checkTradingHours th intent.timestamp with
  | some r => simp [List.findSome?_cons]
  | none =>
    cases h2 : checkNewsBlackout nt calendar intent.timestamp with
    | some r => simp [List.findSome?_cons]
    | none =>
      cases h3 : checkDrawdown limits l with
      | some r => simp [List.findSome?_cons]
      | none =>
        cases h4 : checkPositionCount limits l intent.symbol with
        | some r => simp [List.findSome?_cons]
        | none =>
          cases h5 : checkCorrelation limits corr l intent.symbol with
          | some r => simp [List.findSome?_cons]
          | none => simp [List.findSome?_cons]

/-- Closed witness for C8 at the Saturday intent on the loss-capped account,
where the earliest failing check is the trading-hours check. -/
theorem validate_earliest_failure_witness :
    validate saturdayIntent lossLedger riskManagementConfig tradingHoursConfig
        newsTradingConfig [] (fun _ _ => 0) =
      match (riskChecks saturdayIntent lossLedger riskManagementConfig tradingHoursConfig
          newsTradingConfig [] (fun _ _ => 0)).findSome? id with
      | some r => .Rejected r
      | none => .Approved :=
  validate_earliest_failure saturdayIntent lossLedger riskManagementConfig tradingHoursConfig
    newsTradingConfig [] (fun _ _ => 0)

theorem export_trade_history_eq (env : MT5Env) :
    export_trade_history_to_csv env = (false, none) ∨
      ∃ fromD toD deals, env.initOk = true ∧ env.parseStart = .ok fromD ∧
        env.parseEnd = .ok toD ∧ env.historyDealsGet fromD toD = .ok (some deals) ∧
        deals ≠ [] ∧ env.writeCsv (sortByTime deals) = .ok () ∧
        export_trade_history_to_csv env = (true, some (sortByTime deals)) := by
  cases hin : env.initOk with
  | false =>
    left
    simp [export_trade_history_to_csv, hin]
  | true =>
    cases hps : env.parseStart with
    | error e =>
      left
      simp [export_trade_history_to_csv, hin, hps]
    | ok fromD =>
      cases hpe : env.parseEnd with
      | error e =>
        left
        simp [export_trade_history_to_csv, hin, hps, hpe]
      | ok toD =>
        cases hh : env.historyDealsGet fromD toD with
        | error e =>
          left
          simp [export_trade_history_to_csv, hin, hps, hpe, hh]
        | ok od =>
          cases od with
          | none =>
            left
            simp [export_trade_history_to_csv, hin, hps, hpe, hh]
          | some deals =>
            by_cases hlen : deals.length = 0
            · left
              simp [export_trade_history_to_csv, hin, hps, hpe, hh, hlen]
            · cases hw : env.writeCsv (sortByTime deals) with
              | error e =>
                left
                simp [export_trade_history_to_csv, hin, hps, hpe, hh, hlen, hw]
              | ok u =>
                right
                refine ⟨fromD, toD, deals, rfl, rfl, rfl, hh,
                  fun hnil => hlen (by simp [hnil]), hw, ?_⟩
                simp [export_trade_history_to_csv, hin, hps, hpe, hh, hlen, hw]

/-- C9: export_trade_history_to_csv returns true exactly when initialization,
both date parses, a nonempty history fetch and the CSV write all succeed and
the sorted rows have been written — so it returns false (with nothing
written, and no exception escaping the modelled calls) on a failed
initialization, a raised date parse, a raised or empty history fetch, or a
raised CSV write. -/
theorem export_result_spec (env : MT5Env) :
    ((export_trade_history_to_csv env).1 = true ↔
      ∃ fromD toD deals, env.initOk = true ∧ env.parseStart = .ok fromD ∧
        env.parseEnd = .ok toD ∧ env.historyDealsGet fromD toD = .ok (some deals) ∧
        deals ≠ [] ∧ env.writeCsv (sortByTime deals) = .ok () ∧
        (export_trade_history_to_csv env).2 = some (sortByTime deals)) ∧
    ((export_trade_history_to_csv env).1 = false →
      (export_trade_history_to_csv env).2 = none) := by
  rcases export_trade_history_eq env with hfail | ⟨fromD, toD, deals, h1, h2, h3, h4, h5, h6, hok⟩
  · rw [hfail]
    constructor
    · constructor
      · intro hc
        exact Bool.noConfusion hc
      · rintro ⟨_, _, _, _, _, _, _, _, _, hsnd⟩
        exact Option.noConfusion hsnd
    · intro _
      rfl
  · rw [hok]
    constructor
    · constructor
      · intro _
        exact ⟨fromD, toD, deals, h1, h2, h3, h4, h5, h6, rfl⟩
      · intro _
        rfl
    · intro hc
      exact Bool.noConfusion hc

/-- Closed witness for C9: in the all-success environment the export returns
true. -/
theorem export_result_spec_witness :
    (export_trade_history_to_csv okEnv).1 = true :=
  (export_result_spec okEnv).1.mpr
    ⟨0, 86400, sampleDeals, rfl, rfl, rfl, rfl, by simp [sampleDeals], rfl, rfl⟩

theorem dealTimeLe_trans (a b c : Deal) (hab : dealTimeLe a b) (hbc : dealTimeLe b c) :
    dealTimeLe a c := by
  simp only [dealTimeLe, datetimeLe, epochToDatetime, Bool.or_eq_true, Bool.and_eq_true,
    decide_eq_true_eq, beq_iff_eq] at hab hbc ⊢
  omega

theorem dealTimeLe_total (a b : Deal) : dealTimeLe a b || dealTimeLe b a := by
  simp only [dealTimeLe, datetimeLe, epochToDatetime, Bool.or_eq_true, Bool.and_eq_true,
    decide_eq_true_eq, beq_iff_eq]
  omega

theorem dealTimeLe_time_le (a b : Deal) (h : dealTimeLe a b) : a.time ≤ b.time := by
  simp only [dealTimeLe, datetimeLe, epochToDatetime, Bool.or_eq_true, Bool.and_eq_true,
    decide_eq_true_eq, beq_iff_eq] at h
  omega

theorem sortByTime_pairwise (ds : List Deal) :
    (sortByTime ds).Pairwise (fun a b => a.time ≤ b.time) := by
  have hp := List.sorted_mergeSort dealTimeLe_trans dealTimeLe_total ds
  exact hp.imp (fun hab => dealTimeLe_time_le _ _ hab)

/-- C10: whenever export_trade_history_to_csv returns true, the rows written
to the CSV file are in nondecreasing order of their time column, compared
through the epoch-seconds-to-datetime conversion. -/
theorem export_rows_sorted (env : MT5Env)
    (h : (export_trade_history_to_csv env).1 = true) :
    ∃ rows, (export_trade_history_to_csv env).2 = some rows ∧
      rows.Pairwise (fun a b => a.time ≤ b.time) := by
  rcases export_trade_history_eq env with hfail | ⟨_, _, deals, _, _, _, _, _, _, hok⟩
  · rw [hfail] at h
    exact Bool.noConfusion h
  · rw [hok]
    exact ⟨sortByTime deals, rfl, sortByTime_pairwise deals⟩

/-- Closed witness for C10 in the all-success environment, whose fetched deal
rows arrive out of time order. -/
theorem export_rows_sorted_witness :
    ∃ rows, (export_trade_history_to_csv okEnv).2 = some rows ∧
      rows.Pairwise (fun a b : Deal => a.time ≤ b.time) :=
  export_rows_sorted okEnv rfl

end Trading
